import Mathlib

/-!
Shallow embedding of `notify.py`, the movie release notification script.

The script enriches a release event with movie metadata and composes a
Telegram MarkdownV2 message.  Pure formatting code is translated directly;
network lookups are stubbed as explicit parameters of the `runMain` model;
raised Python exceptions are modelled as `Option`/`Except` error values.
Real (float) division from Python is modelled by exact rational arithmetic
over scaled naturals, with round-half-even as used by the `.2f` format
specifier.
-/

/-- The 18 MarkdownV2 special characters replaced by
`MessageFormatter.escape_special_chars`, in the source's list order
(the backtick and the two braces are written by code point). -/
def special_chars : List Char :=
  ['_', '*', '[', ']', '(', ')', '~', Char.ofNat 96, '>', '#', '+', '-', '=',
   '|', Char.ofNat 123, Char.ofNat 125, '.', '!']

/-- One iteration of the loop body `text = text.replace(char, "\" + char)`
for a single-character pattern, acting on the character list of the text. -/
def replaceChar (c : Char) (l : List Char) : List Char :=
  l.flatMap fun x => if x = c then ['\\', c] else [x]

/-- Embedding of `MessageFormatter.escape_special_chars`: apply the 18
single-character replacements sequentially, in list order. -/
def escape_special_chars (text : String) : String :=
  String.mk (special_chars.foldl (fun t c => replaceChar c t) text.data)

/-- Single left-to-right pass inserting one backslash before each special
character; the specification-side description that the sequential
replacement loop of `escape_special_chars` is compared against. -/
def singlePassEscape (text : String) : String :=
  String.mk (text.data.flatMap fun x =>
    if x ∈ special_chars then ['\\', x] else [x])

/-- Round the fraction `num / den` to the nearest integer, ties to even:
the rounding performed by Python's `.2f` format specifier (real division
modelled exactly as a fraction of naturals). -/
def roundHalfEven (num den : Nat) : Nat :=
  let q := num / den
  let r := num % den
  if 2 * r < den then q
  else if den < 2 * r then q + 1
  else if q % 2 = 0 then q else q + 1

/-- Render a count of hundredths as a decimal numeral with exactly two
digits after the point. -/
def formatHundredths (c : Nat) : String :=
  toString (c / 100) ++ "." ++
    (if c % 100 < 10 then "0" ++ toString (c % 100) else toString (c % 100))

/-- Format the fraction `num / den` with two decimal places, as Python's
`f"{num/den:.2f}"` does. -/
def formatTwoDecimals (num den : Nat) : String :=
  formatHundredths (roundHalfEven (num * 100) den)

/-- Embedding of `MessageFormatter.format_file_info`.  The bitrate line
divides by `runtime * 60`; the source has no guard, so `runtime = 0`
raises an unhandled `ZeroDivisionError`, modelled here as `none`. -/
def format_file_info (file_size runtime : Nat) :
    Option (String × String × String) :=
  if runtime = 0 then none
  else
    some (formatTwoDecimals file_size (1024 ^ 3) ++ " GiB",
          toString runtime ++ " 分钟",
          formatTwoDecimals (file_size * 8) (runtime * 60 * 1000000) ++ " Mbps")

/-- Cast member record, as consumed from the TMDB credits payload. -/
structure CastMember where
  name : String
  deriving DecidableEq

/-- Crew member record, as consumed from the TMDB credits payload. -/
structure CrewMember where
  name : String
  job : String
  deriving DecidableEq

/-- Genre record, as consumed from the TMDB details payload. -/
structure Genre where
  name : String
  deriving DecidableEq

/-- Movie details record (one TMDB `details` response), restricted to the
fields the script reads. -/
structure Details where
  title : String
  release_date : String
  overview : String
  genres : List Genre
  runtime : Nat
  imdb_id : String
  backdrop_path : Option String
  poster_path : Option String
  deriving DecidableEq

/-- Parsed command-line arguments of the script. -/
structure Args where
  torrent_name : String
  indexer_name : String
  group_name : String
  release_year : String
  parsed_title : String
  file_size : Nat
  deriving DecidableEq

/-- One TMDB search result; the script only ever reads its id. -/
structure SearchResult where
  id : Nat
  deriving DecidableEq

/-- Loop of `MessageFormatter.format_cast`: emit names until the count
reaches `max_count` (the `count >= max_count` break). -/
def collect_cast (max_count : Nat) : List CastMember → Nat → List String
  | [], _ => []
  | p :: rest, count =>
    if max_count ≤ count then []
    else p.name :: collect_cast max_count rest (count + 1)

/-- Embedding of `MessageFormatter.format_cast`. -/
def format_cast (cast : List CastMember) (max_count : Nat) : String :=
  String.intercalate ", " (collect_cast max_count cast 0)

/-- Loop of `MessageFormatter.format_director`: emit the names of crew
members whose job is "Director", counting only those, until the count
reaches `max_count`. -/
def collect_directors (max_count : Nat) : List CrewMember → Nat → List String
  | [], _ => []
  | p :: rest, count =>
    if max_count ≤ count then []
    else if p.job == "Director" then
      p.name :: collect_directors max_count rest (count + 1)
    else collect_directors max_count rest count

/-- Embedding of `MessageFormatter.format_director`. -/
def format_director (crew : List CrewMember) (max_count : Nat) : String :=
  String.intercalate ", " (collect_directors max_count crew 0)

/-- Python's `a or b` on strings: the empty string is falsy. -/
def pyOrStr (a b : String) : String :=
  if a = "" then b else a

/-- Python's `a or b` on optional strings (`None` and `""` are falsy). -/
def pyOr (a b : Option String) : Option String :=
  match a with
  | none => b
  | some s => if s = "" then b else some s

/-- Interpolation of an optional string into a Python f-string: `None`
renders as the literal text "None". -/
def pyStrOpt : Option String → String
  | none => "None"
  | some s => s

/-- Embedding of the `poster_url` expression in `main`:
`f"https://image.tmdb.org/t/p/original{details_en.backdrop_path or details_en.poster_path}"`. -/
def resolvePosterUrl (backdrop poster : Option String) : String :=
  "https://image.tmdb.org/t/p/original" ++ pyStrOpt (pyOr backdrop poster)

/-- The `movie_data` dictionary assembled in `main`. -/
structure MovieData where
  title : String
  year : String
  overview : String
  genres : List String
  director : String
  starring : String
  size : String
  duration : String
  bitrate : String
  indexer : String
  group : String
  torrent_name : String
  poster_url : String
  deriving DecidableEq

/-- The eleven zero-width spaces (U+200B) used as invisible link text for
the poster hyperlink in the info line. -/
def zwsp : String :=
  String.mk (List.replicate 11 (Char.ofNat 8203))

/-- Embedding of `MessageFormatter.create_message`.  Only the `zh-CN`
template exists in the source; for any other language the `template`
variable is never assigned and the method raises `UnboundLocalError`,
modelled here as `none`. -/
def create_message (movie_data : MovieData) (language : String) :
    Option String :=
  let parts : List String :=
    ["\\#" ++ movie_data.indexer ++ " \\#" ++ movie_data.group ++ "\n"]
  if language = "zh-CN" then
    let template : List (String × String) :=
      [("*名称*：", movie_data.title ++ " \\(" ++ movie_data.year ++ "\\)"),
       ("*导演*：", escape_special_chars movie_data.director),
       ("*演员*：", escape_special_chars movie_data.starring),
       ("*类型*：", String.intercalate ", " movie_data.genres),
       ("*标题*：", "__" ++ escape_special_chars movie_data.torrent_name ++ "__"),
       ("*信息*：", escape_special_chars movie_data.size ++ " / " ++
          escape_special_chars movie_data.duration ++ " / " ++
          escape_special_chars movie_data.bitrate ++
          "[" ++ zwsp ++ "](" ++ movie_data.poster_url ++ ")"),
       ("\n", "> " ++ escape_special_chars movie_data.overview)]
    some (String.intercalate "\n"
      (parts ++ template.map fun lc => lc.1 ++ lc.2))
  else
    none

/-- The `zh-CN` message written out as an explicit ordered list of labeled
lines: hashtag header, title with year, director, starring, genres,
torrent name, size/duration/bitrate info line with the invisible poster
hyperlink, block-quoted synopsis. -/
def expected_message_zh (md : MovieData) : String :=
  String.intercalate "\n"
    ["\\#" ++ md.indexer ++ " \\#" ++ md.group ++ "\n",
     "*名称*：" ++ (md.title ++ " \\(" ++ md.year ++ "\\)"),
     "*导演*：" ++ escape_special_chars md.director,
     "*演员*：" ++ escape_special_chars md.starring,
     "*类型*：" ++ String.intercalate ", " md.genres,
     "*标题*：" ++ ("__" ++ escape_special_chars md.torrent_name ++ "__"),
     "*信息*：" ++ (escape_special_chars md.size ++ " / " ++
        escape_special_chars md.duration ++ " / " ++
        escape_special_chars md.bitrate ++
        "[" ++ zwsp ++ "](" ++ md.poster_url ++ ")"),
     "\n" ++ ("> " ++ escape_special_chars md.overview)]

/-- The `movie_data` dictionary literal built in `main` from the fetched
details, the English-language details, the credits and the arguments. -/
def movieDataOf (args : Args) (details details_en : Details)
    (cast : List CastMember) (crew : List CrewMember)
    (size duration bitrate : String) : MovieData :=
  { title := details.title
    year := (details.release_date.splitOn "-").headD ""
    overview := pyOrStr details.overview details_en.overview
    genres := details.genres.map Genre.name
    director := format_director crew 3
    starring := format_cast cast 3
    size := size
    duration := duration
    bitrate := bitrate
    indexer := args.indexer_name
    group := args.group_name
    torrent_name := args.torrent_name
    poster_url := resolvePosterUrl details_en.backdrop_path details_en.poster_path }

/-- Embedding of `main`, with the TMDB responses (search results, details
in the display language, details in English, cast, crew) stubbed as
parameters and the configured display language made explicit.  Raised
exceptions become `Except.error`: the explicit `ValueError` when the
search returns no candidates, the `ZeroDivisionError` from
`format_file_info` at zero runtime, and the `UnboundLocalError` from
`create_message` for a locale without a template.  `Except.ok` carries
the message text handed to `TelegramNotifier.send`; on `Except.error`
no send happens and the process exits non-zero. -/
def runMain (args : Args) (results : List SearchResult)
    (details details_en : Details) (cast : List CastMember)
    (crew : List CrewMember) (language : String) : Except String String :=
  if results.isEmpty then
    Except.error "No movie found with the provided title and year"
  else
    match format_file_info args.file_size details.runtime with
    | none => Except.error "ZeroDivisionError"
    | some (size, duration, bitrate) =>
      match create_message
          (movieDataOf args details details_en cast crew size duration bitrate)
          language with
      | none => Except.error "UnboundLocalError"
      | some message => Except.ok message

/-- Fixture: a `movie_data` value whose title contains a MarkdownV2 special
character and whose genre list contains a hyphen, to evaluate
`create_message` on. -/
def mdTitleDot : MovieData :=
  { title := "a.b", year := "2024", overview := "o", genres := ["Sci-Fi"],
    director := "d", starring := "s", size := "0.93 GiB",
    duration := "120 分钟", bitrate := "1.11 Mbps", indexer := "IDX",
    group := "GRP", torrent_name := "t", poster_url := "u" }

/-- Fixture: a `movie_data` value with an empty director field. -/
def mdEmptyDirector : MovieData :=
  { title := "T", year := "2024", overview := "o", genres := ["g"],
    director := "", starring := "s", size := "1.00 GiB",
    duration := "90 分钟", bitrate := "2.00 Mbps", indexer := "I",
    group := "G", torrent_name := "t", poster_url := "u" }

/-- Fixture: a `movie_data` value whose poster URL was resolved with both
`backdrop_path` and `poster_path` absent. -/
def mdNoPoster : MovieData :=
  { title := "T", year := "2024", overview := "o", genres := ["g"],
    director := "d", starring := "s", size := "1.00 GiB",
    duration := "90 分钟", bitrate := "2.00 Mbps", indexer := "I",
    group := "G", torrent_name := "t",
    poster_url := resolvePosterUrl none none }

/-- Folding the per-character replacements over a duplicate-free list of
characters that does not contain the backslash is one single
left-to-right pass over the text. -/
theorem foldl_replaceChar_eq :
    ∀ cs : List Char, cs.Nodup → '\\' ∉ cs → ∀ l : List Char,
      cs.foldl (fun t c => replaceChar c t) l
        = l.flatMap (fun x => if x ∈ cs then ['\\', x] else [x]) := by
  intro cs
  induction cs with
  | nil => intro _ _ l; simp
  | cons c cs ih =>
    intro hnd hb l
    have hcc : c ∉ cs := (List.nodup_cons.mp hnd).1
    have hnd' : cs.Nodup := (List.nodup_cons.mp hnd).2
    have hb1 : ('\\' : Char) ≠ c := fun h => hb (List.mem_cons.mpr (Or.inl h))
    have hb2 : ('\\' : Char) ∉ cs := fun h => hb (List.mem_cons_of_mem _ h)
    rw [List.foldl_cons, ih hnd' hb2 (replaceChar c l)]
    unfold replaceChar
    rw [List.flatMap_assoc]
    congr 1
    funext x
    by_cases hx : x = c
    · subst hx
      simp [hb2, hcc]
    · simp [hx]

/-- The director loop collects exactly the names of the first
`max_count - count` crew members whose job is "Director", in order. -/
theorem collect_directors_eq (max_count : Nat) :
    ∀ (crew : List CrewMember) (count : Nat),
      collect_directors max_count crew count
        = (((crew.filter fun p => p.job == "Director").map
            CrewMember.name).take (max_count - count)) := by
  intro crew
  induction crew with
  | nil => intro count; simp [collect_directors]
  | cons p rest ih =>
    intro count
    by_cases h1 : max_count ≤ count
    · have h0 : max_count - count = 0 := Nat.sub_eq_zero_of_le h1
      simp [collect_directors, h1, h0]
    · by_cases h2 : p.job == "Director"
      · have hs : max_count - count = (max_count - (count + 1)) + 1 := by omega
        simp [collect_directors, h1, h2, ih, hs]
      · simp [collect_directors, h1, h2, ih]

set_option maxRecDepth 100000 in
/-- C1: the claim says every raw dynamic value, the movie title and the
genre names included, is escaped.  Evaluating `create_message` on a title
containing "." and a genre containing "-" shows both reach the output
unescaped (while the size and bitrate labels do get escaped), so a title
or genre with a special character breaks the MarkdownV2 contract. -/
theorem c1_title_genres_unescaped :
    create_message mdTitleDot "zh-CN"
      = some ("\\#IDX \\#GRP\n\n*名称*：a.b \\(2024\\)\n*导演*：d\n*演员*：s\n*类型*：Sci-Fi\n*标题*：__t__\n*信息*：0\\.93 GiB / 120 分钟 / 1\\.11 Mbps["
          ++ zwsp ++ "](u)\n\n> o") := by
  decide

set_option maxRecDepth 100000 in
/-- C2 counterexample: with the default/English locale `create_message`
produces no message at all (the `template` variable is never assigned),
and with the CJK locale an empty director field is not skipped: its
labeled line is still emitted. -/
theorem c2_counterexample :
    create_message mdEmptyDirector "en-US" = none
    ∧ create_message mdEmptyDirector "zh-CN"
      = some ("\\#I \\#G\n\n*名称*：T \\(2024\\)\n*导演*：\n*演员*：s\n*类型*：g\n*标题*：__t__\n*信息*：1\\.00 GiB / 90 分钟 / 2\\.00 Mbps["
          ++ zwsp ++ "](u)\n\n> o") := by
  constructor <;> decide

/-- C2 (amended): only the CJK locale produces a message; its fields come
in the fixed order (hashtags, title with year, director, starring,
genres, torrent name, info line with the invisible poster hyperlink,
block-quoted synopsis) with every field always emitted, empty or not;
any other locale value yields no message. -/
theorem c2_locale_and_field_order (md : MovieData) (language : String) :
    create_message md language
      = if language = "zh-CN" then some (expected_message_zh md)
        else none := by
  by_cases h : language = "zh-CN"
  · subst h; rfl
  · simp [create_message, h]

/-- C3: the media-metrics computation has no guard for a zero runtime;
the division by `runtime * 60` raises an unhandled `ZeroDivisionError`
(modelled as `none`) instead of returning labels. -/
theorem c3_zero_runtime_crash :
    ∀ file_size : Nat, format_file_info file_size 0 = none :=
  fun _ => rfl

/-- C4 counterexample: the bitrate label computed for one gigabyte and a
120-minute runtime is not "0.56 Mbps". -/
theorem c4_counterexample :
    (format_file_info 1000000000 120).map (fun t => t.2.2)
      ≠ some "0.56 Mbps" := by
  decide

/-- C4 (amended): for bytes = 1000000000 and runtime = 120 the formula
(bytes * 8) / (runtime * 60) / 1000000 gives 1.111..., so the labels are
"0.93 GiB", "120 分钟" and "1.11 Mbps". -/
theorem c4_bitrate_value :
    format_file_info 1000000000 120
      = some ("0.93 GiB", "120 分钟", "1.11 Mbps") := by
  decide

set_option maxRecDepth 100000 in
/-- C5 counterexample: with both `backdrop_path` and `poster_path` absent
the resolved URL ends in the literal text "None" and `create_message`
still emits the invisible-character hyperlink with that broken URL,
rather than omitting the poster-dependent content. -/
theorem c5_counterexample :
    resolvePosterUrl none none = "https://image.tmdb.org/t/p/originalNone"
    ∧ create_message mdNoPoster "zh-CN"
      = some ("\\#I \\#G\n\n*名称*：T \\(2024\\)\n*导演*：d\n*演员*：s\n*类型*：g\n*标题*：__t__\n*信息*：1\\.00 GiB / 90 分钟 / 2\\.00 Mbps["
          ++ zwsp ++ "](https://image.tmdb.org/t/p/originalNone)\n\n> o") := by
  constructor <;> decide

/-- C5 (amended): poster resolution prefers a present (non-empty)
`backdrop_path` over `poster_path`; when the backdrop is absent the
poster path is interpolated instead; and when both are absent the URL is
formed with the literal text "None" — a broken link that is still
emitted — rather than the poster content being omitted. -/
theorem c5_poster_resolution (b p : Option String) :
    (∀ s, b = some s → s ≠ "" →
      resolvePosterUrl b p = "https://image.tmdb.org/t/p/original" ++ s)
    ∧ ((b = none ∨ b = some "") →
      resolvePosterUrl b p
        = "https://image.tmdb.org/t/p/original" ++ pyStrOpt p)
    ∧ ((b = none ∨ b = some "") → p = none →
      resolvePosterUrl b p = "https://image.tmdb.org/t/p/originalNone") := by
  refine ⟨?_, ?_, ?_⟩
  · rintro s rfl hs
    simp [resolvePosterUrl, pyOr, pyStrOpt, hs]
  · rintro (rfl | rfl)
    · rfl
    · simp [resolvePosterUrl, pyOr]
  · rintro hb rfl
    rcases hb with rfl | rfl <;> decide

/-- Witness for `c5_poster_resolution` at concrete inputs. -/
theorem c5_poster_resolution_witness :
    resolvePosterUrl (some "/b.jpg") (some "/p.jpg")
      = "https://image.tmdb.org/t/p/original" ++ "/b.jpg"
    ∧ resolvePosterUrl none none
      = "https://image.tmdb.org/t/p/originalNone" :=
  ⟨(c5_poster_resolution (some "/b.jpg") (some "/p.jpg")).1 "/b.jpg" rfl
      (by decide),
   (c5_poster_resolution none none).2.2 (Or.inl rfl) rfl⟩

/-- C6: the overview placed in `movie_data` is the primary-language
overview when that is non-empty and the English overview otherwise, so it
is empty exactly when both lookups returned an empty overview. -/
theorem c6_overview_fallback (args : Args) (details details_en : Details)
    (cast : List CastMember) (crew : List CrewMember)
    (size duration bitrate : String) :
    (movieDataOf args details details_en cast crew
        size duration bitrate).overview
      = (if details.overview = "" then details_en.overview
         else details.overview)
    ∧ ((movieDataOf args details details_en cast crew
        size duration bitrate).overview = ""
      ↔ details.overview = "" ∧ details_en.overview = "") := by
  refine ⟨rfl, ?_⟩
  by_cases h : details.overview = "" <;> simp [movieDataOf, pyOrStr, h]

/-- C7: the escape function maps "a.b" to "a\.b" and is not idempotent:
applying it twice doubles the backslash. -/
theorem c7_escape_not_idempotent :
    escape_special_chars "a.b" = "a\\.b"
    ∧ escape_special_chars (escape_special_chars "a.b")
      ≠ escape_special_chars "a.b" := by
  constructor <;> decide

/-- C8: when the search returns zero candidates the run fails with the
"No movie found" error (the spec's `NotFoundError`); no message value is
produced, so the dispatcher's send is never invoked and the unhandled
exception terminates the process with a non-zero exit. -/
theorem c8_no_candidates_fatal (args : Args)
    (details details_en : Details) (cast : List CastMember)
    (crew : List CrewMember) (language : String) :
    runMain args [] details details_en cast crew language
      = Except.error "No movie found with the provided title and year" :=
  rfl

/-- C9: `format_director` returns the comma-joined names of exactly the
crew members whose job is "Director", capped at the first 3 in original
crew order, and the empty string when the crew has no directors. -/
theorem c9_format_director_spec (crew : List CrewMember) :
    format_director crew 3
      = String.intercalate ", "
          (((crew.filter fun p => p.job == "Director").map
            CrewMember.name).take 3)
    ∧ ((crew.filter fun p => p.job == "Director") = []
      → format_director crew 3 = "") := by
  constructor
  · rw [format_director, collect_directors_eq]
  · intro h
    rw [format_director, collect_directors_eq, h]
    rfl

/-- Witness for `c9_format_director_spec` on a crew with no directors. -/
theorem c9_format_director_witness :
    (([⟨"A", "Producer"⟩] : List CrewMember).filter
        fun p => p.job == "Director") = []
    ∧ format_director [⟨"A", "Producer"⟩] 3 = "" :=
  ⟨by decide,
   (c9_format_director_spec [⟨"A", "Producer"⟩]).2 (by decide)⟩

/-- C10: backslash is not one of the 18 replaced characters, so the
sequential replacement loop of `escape_special_chars` equals one single
left-to-right pass that puts exactly one new backslash before each
special character and never touches previously inserted backslashes. -/
theorem c10_single_pass_equiv :
    '\\' ∉ special_chars
    ∧ ∀ s : String, escape_special_chars s = singlePassEscape s := by
  refine ⟨by decide, fun s => ?_⟩
  unfold escape_special_chars singlePassEscape
  rw [foldl_replaceChar_eq special_chars (by decide) (by decide) s.data]
